import Mathlib

/-!
Verification of the analytics context-composition and delivery-retry logic of
a React analytics component library.

The embedding models, from `src/src/analytics/NatsAdapter.ts`:
* the data model (`AnalyticsContext`, `AnalyticsEvent`) and the JavaScript
  object-spread semantics used to merge contexts (`overlay`, `spreadContext`);
* the React provider chain (`Scope`, `runTrack`): `AnalyticsProvider` and
  `AnalyticsContextProvider` nodes, innermost scope first, with the track
  closure semantics written out as a recursion over the chain, emitting the
  list of (adapter id, finalized event) deliveries;
* the hooks `useAnalytics` / `useOptionalAnalytics` and the `Button`
  component's click handler from `src/src/components/Button.tsx`;
* the `NatsAdapter` delivery sink: configuration normalization, the
  try/catch around the HTTP send (`natsTrack`), the in-memory retry queue and
  the drain procedure (`retryQueue`);
and, from `demo/bridge.js`, the collector-side `POST /analytics` handler.

Adapters are identified by natural numbers; free-form JavaScript values in
`custom` and `metadata` mappings are modelled as association lists from
strings to integers.  Wall-clock reads (`Date.now()`) are modelled by an
explicit clock argument, and each network send outcome is an explicit input.
-/

/-- The `AnalyticsContext` interface: named optional fields plus an
open-ended `custom` mapping.  The source field `section` is a Lean keyword,
so it is called `sectionField` here. -/
structure AnalyticsContext where
  view : Option String := none
  sectionField : Option String := none
  sessionId : Option String := none
  userId : Option String := none
  channel : Option String := none
  appVersion : Option String := none
  custom : Option (List (String × Int)) := none
deriving DecidableEq

/-- The `AnalyticsEvent` interface: a finalized event. -/
structure AnalyticsEvent where
  eventType : String
  componentType : String
  componentId : Option String := none
  metadata : Option (List (String × Int)) := none
  timestamp : Nat
  context : Option AnalyticsContext := none
deriving DecidableEq

/-- `Omit AnalyticsEvent timestamp`: the partial event a UI control passes to
`track` (no timestamp yet; an optional event-level context). -/
structure PartialEvent where
  eventType : String
  componentType : String
  componentId : Option String := none
  metadata : Option (List (String × Int)) := none
  context : Option AnalyticsContext := none
deriving DecidableEq

/-- One field of a JavaScript object spread `spread a b`: the value of `b`
wins when the key is present in `b`, otherwise `a`'s value survives. -/
def overlay {α : Type} (a b : Option α) : Option α :=
  match b with
  | some v => some v
  | none => a

/-- Coerce an optional context to a context object, as JavaScript spread does
with `undefined` (spreading `undefined` contributes no keys). -/
def ctxOf (o : Option AnalyticsContext) : AnalyticsContext :=
  o.getD {}

/-- JavaScript object spread of two contexts, later argument winning per
top-level field.  Note that `custom` is a single top-level field: the spread
replaces the whole sub-mapping, it does not merge it key by key. -/
def spreadContext (a b : AnalyticsContext) : AnalyticsContext :=
  { view := overlay a.view b.view
    sectionField := overlay a.sectionField b.sectionField
    sessionId := overlay a.sessionId b.sessionId
    userId := overlay a.userId b.userId
    channel := overlay a.channel b.channel
    appVersion := overlay a.appVersion b.appVersion
    custom := overlay a.custom b.custom }

/-- A node of the React provider chain.
* `provider adapter enabled context` models `AnalyticsProvider` with an
  optional adapter (identified by a number), its `enabled` flag and its
  optional `context` prop.
* `contextProvider contribution` models `AnalyticsContextProvider` with its
  `context` prop. -/
inductive Scope where
  | provider (adapter : Option Nat) (enabled : Bool) (context : Option AnalyticsContext)
  | contextProvider (contribution : AnalyticsContext)
deriving DecidableEq

/-- The `context` field of the context value visible below a chain of scopes
(innermost scope first).  An `AnalyticsProvider` exposes its own `context`
prop (ignoring ancestors); an `AnalyticsContextProvider` exposes
`mergedContext`, the spread of the parent's exposed context with its own
contribution. -/
def ctxResolved : List Scope → Option AnalyticsContext
  | [] => none
  | .provider _ _ pctx :: _ => pctx
  | .contextProvider add :: rest => some (spreadContext (ctxOf (ctxResolved rest)) add)

/-- The `adapter` field of the context value visible below a chain of scopes:
an `AnalyticsProvider` exposes its own adapter, an
`AnalyticsContextProvider` forwards the parent's adapter. -/
def ctxAdapter : List Scope → Option Nat
  | [] => none
  | .provider a _ _ :: _ => a
  | .contextProvider _ :: rest => ctxAdapter rest

/-- Finalization inside `AnalyticsProvider.track`: assign the timestamp from
the clock and spread the provider's context under the event's own context. -/
def finalizeEvent (now : Nat) (pctx : Option AnalyticsContext) (e : PartialEvent) :
    AnalyticsEvent :=
  { eventType := e.eventType
    componentType := e.componentType
    componentId := e.componentId
    metadata := e.metadata
    timestamp := now
    context := some (spreadContext (ctxOf pctx) (ctxOf e.context)) }

/-- The `track` closure visible below a chain of scopes (innermost first),
applied to a partial event: returns the list of (adapter id, finalized event)
deliveries it performs.
* With no scope at all there is no context value, hence no deliveries.
* `AnalyticsProvider.track` returns early when disabled; otherwise it
  finalizes the event and calls its own adapter (exactly once) when present,
  and only logs when absent.
* `AnalyticsContextProvider.track` warns and returns when it has no parent
  value; otherwise it forwards to the parent's track with the event context
  rebuilt as parent context, then its contribution, then the event context. -/
def runTrack (now : Nat) : List Scope → PartialEvent → List (Nat × AnalyticsEvent)
  | [], _ => []
  | .provider a enabled pctx :: _, e =>
    if enabled then
      match a with
      | some aid => [(aid, finalizeEvent now pctx e)]
      | none => []
    else []
  | .contextProvider add :: rest, e =>
    if rest.isEmpty then []
    else
      runTrack now rest
        { e with
          context :=
            some (spreadContext (spreadContext (ctxOf (ctxResolved rest)) add)
              (ctxOf e.context)) }

/-- The context value obtained from the React context by the hooks: present
exactly when at least one provider or context-provider scope encloses the
call site. -/
structure AnalyticsContextValue where
  adapter : Option Nat := none
  context : Option AnalyticsContext := none
deriving DecidableEq

/-- `useContext(AnalyticsReactContext)` below a chain of scopes. -/
def contextValue : List Scope → Option AnalyticsContextValue
  | [] => none
  | s :: rest => some { adapter := ctxAdapter (s :: rest), context := ctxResolved (s :: rest) }

/-- The required accessor `useAnalytics`: raises when no provider encloses
the call site. -/
def useAnalytics (chain : List Scope) : Except String AnalyticsContextValue :=
  match contextValue chain with
  | none => Except.error "useAnalytics must be used within an AnalyticsProvider"
  | some v => Except.ok v

/-- The optional accessor `useOptionalAnalytics`: just the raw context value,
absent when no provider encloses the call site. -/
def useOptionalAnalytics (chain : List Scope) : Option AnalyticsContextValue :=
  contextValue chain

/-- The partial event that `Button.handleClick` constructs. -/
def buttonClickEvent (analyticsId : Option String)
    (md : Option (List (String × Int))) : PartialEvent :=
  { eventType := "click"
    componentType := "button"
    componentId := analyticsId
    metadata := md
    context := none }

/-- `Button.handleClick`: tracks only when analytics is not disabled on the
component, an analytics value is reachable, and the button is not disabled;
otherwise it performs no tracking action (the original `onClick` still runs,
which is outside the analytics model). -/
def handleClick (chain : List Scope) (disableAnalytics disabled : Bool)
    (analyticsId : Option String) (md : Option (List (String × Int)))
    (now : Nat) : List (Nat × AnalyticsEvent) :=
  if !disableAnalytics && (useOptionalAnalytics chain).isSome && !disabled then
    runTrack now chain (buttonClickEvent analyticsId md)
  else []

theorem overlay_absorb {α : Type} (a b c : Option α) :
    overlay a (overlay (overlay a b) c) = overlay (overlay a b) c := by
  cases c <;> cases b <;> cases a <;> rfl

theorem spreadContext_absorb (a b c : AnalyticsContext) :
    spreadContext a (spreadContext (spreadContext a b) c)
      = spreadContext (spreadContext a b) c := by
  simp only [spreadContext, overlay_absorb]

theorem spreadContext_default (a : AnalyticsContext) : spreadContext a {} = a := rfl

theorem ctxOf_some (c : AnalyticsContext) : ctxOf (some c) = c := rfl

theorem ctxOf_none : ctxOf none = {} := rfl

/-- Every event an adapter receives carries the timestamp read from the clock
at the moment `track` was invoked on the chain. -/
theorem runTrack_timestamp (now : Nat) :
    ∀ (chain : List Scope) (e : PartialEvent) (a : Nat) (ev : AnalyticsEvent),
      (a, ev) ∈ runTrack now chain e → ev.timestamp = now
  | [], _, _, _ => by simp [runTrack]
  | .provider ad enabled pctx :: rest, e, a, ev => by
    cases enabled with
    | false => simp [runTrack]
    | true =>
      cases ad with
      | none => simp [runTrack]
      | some aid =>
        intro h
        simp only [runTrack, if_true, List.mem_singleton, Prod.mk.injEq] at h
        rw [h.2]
        rfl
  | .contextProvider add :: rest, e, a, ev => by
    cases rest with
    | nil => simp [runTrack]
    | cons s rs =>
      intro h
      simp only [runTrack, List.isEmpty_cons, Bool.false_eq_true, if_false] at h
      exact runTrack_timestamp now (s :: rs) _ a ev h

/-- Every delivery goes to the adapter exposed by the scope nearest the
emitting control (context providers forward their parent's adapter). -/
theorem runTrack_adapter (now : Nat) :
    ∀ (chain : List Scope) (e : PartialEvent) (a : Nat) (ev : AnalyticsEvent),
      (a, ev) ∈ runTrack now chain e → ctxAdapter chain = some a
  | [], _, _, _ => by simp [runTrack]
  | .provider ad enabled pctx :: rest, e, a, ev => by
    cases enabled with
    | false => simp [runTrack]
    | true =>
      cases ad with
      | none => simp [runTrack]
      | some aid =>
        intro h
        simp only [runTrack, if_true, List.mem_singleton, Prod.mk.injEq] at h
        rw [ctxAdapter, h.1]
  | .contextProvider add :: rest, e, a, ev => by
    cases rest with
    | nil => simp [runTrack]
    | cons s rs =>
      intro h
      simp only [runTrack, List.isEmpty_cons, Bool.false_eq_true, if_false] at h
      exact runTrack_adapter now (s :: rs) _ a ev h

/-- A chain delivers at most one adapter invocation per tracked event. -/
theorem runTrack_length (now : Nat) :
    ∀ (chain : List Scope) (e : PartialEvent), (runTrack now chain e).length ≤ 1
  | [], _ => by simp [runTrack]
  | .provider ad enabled pctx :: rest, e => by
    cases enabled with
    | false => simp [runTrack]
    | true =>
      cases ad with
      | none => simp [runTrack]
      | some aid => simp [runTrack]
  | .contextProvider add :: rest, e => by
    cases rest with
    | nil => simp [runTrack]
    | cons s rs =>
      simp only [runTrack, List.isEmpty_cons, Bool.false_eq_true, if_false]
      exact runTrack_length now (s :: rs) _

/-- The context of every delivered event is the chain's resolved context
overlaid with the event's own context. -/
theorem runTrack_context (now : Nat) :
    ∀ (chain : List Scope) (e : PartialEvent) (a : Nat) (ev : AnalyticsEvent),
      (a, ev) ∈ runTrack now chain e →
      ev.context = some (spreadContext (ctxOf (ctxResolved chain)) (ctxOf e.context))
  | [], _, _, _ => by simp [runTrack]
  | .provider ad enabled pctx :: rest, e, a, ev => by
    cases enabled with
    | false => simp [runTrack]
    | true =>
      cases ad with
      | none => simp [runTrack]
      | some aid =>
        intro h
        simp only [runTrack, if_true, List.mem_singleton, Prod.mk.injEq] at h
        rw [h.2]
        rfl
  | .contextProvider add :: rest, e, a, ev => by
    cases rest with
    | nil => simp [runTrack]
    | cons s rs =>
      intro h
      simp only [runTrack, List.isEmpty_cons, Bool.false_eq_true, if_false] at h
      have ih := runTrack_context now (s :: rs) _ a ev h
      rw [ih]
      simp only [ctxOf_some, ctxResolved, spreadContext_absorb]

/-- The `sectionField` value the chain resolves for a tracked event: the
innermost contribution wins; an `AnalyticsProvider` in the chain drops all
outer contributions (its `track` consults only its own `context` prop). -/
def resolvedSection : List Scope → Option String
  | [] => none
  | .provider _ _ pctx :: _ => (ctxOf pctx).sectionField
  | .contextProvider add :: rest => overlay (resolvedSection rest) add.sectionField

/-- The `custom` mapping the chain resolves for a tracked event: the innermost
contributed mapping wins as a whole (the spread replaces the entire `custom`
field, it does not merge the sub-mapping key by key). -/
def resolvedCustom : List Scope → Option (List (String × Int))
  | [] => none
  | .provider _ _ pctx :: _ => (ctxOf pctx).custom
  | .contextProvider add :: rest => overlay (resolvedCustom rest) add.custom

theorem ctxResolved_sectionField :
    ∀ chain : List Scope, (ctxOf (ctxResolved chain)).sectionField = resolvedSection chain
  | [] => rfl
  | .provider _ _ _ :: _ => rfl
  | .contextProvider add :: rest => by
    simp only [ctxResolved, ctxOf_some, spreadContext, resolvedSection,
      ctxResolved_sectionField rest]

theorem ctxResolved_custom :
    ∀ chain : List Scope, (ctxOf (ctxResolved chain)).custom = resolvedCustom chain
  | [] => rfl
  | .provider _ _ _ :: _ => rfl
  | .contextProvider add :: rest => by
    simp only [ctxResolved, ctxOf_some, spreadContext, resolvedCustom,
      ctxResolved_custom rest]

/-- Modelled from the spec: the key-by-key merge of an outer and an inner
custom mapping in which the inner contribution wins per key.  This definition
follows the spec's words and exists only to compare the claimed merge
behavior with the source's spread semantics. -/
def mergeCustomSpec (outer inner : List (String × Int)) : List (String × Int) :=
  outer.filter (fun p => inner.all (fun q => q.fst != p.fst)) ++ inner

/-- Outer scope of the custom-merge scenario: contributes a custom mapping
sending x to 1. -/
def c1OuterCtx : AnalyticsContext := { custom := some [("x", 1)] }

/-- Inner scope of the custom-merge scenario: contributes a custom mapping
sending y to 2. -/
def c1InnerCtx : AnalyticsContext := { custom := some [("y", 2)] }

/-- Nested scopes for the custom-merge scenario, innermost first: an
`AnalyticsContextProvider` contributing the inner mapping under an
`AnalyticsProvider` (adapter 0) contributing the outer mapping. -/
def c1Chain : List Scope :=
  [Scope.contextProvider c1InnerCtx, Scope.provider (some 0) true (some c1OuterCtx)]

/-- A plain click event with no event-level context. -/
def clickEvent : PartialEvent := { eventType := "click", componentType := "button" }

/-- Claim C1 (counterexample): with an outer scope contributing the custom
mapping (x to 1) and an inner scope contributing (y to 2), the context
resolved for a tracked event carries the inner mapping alone — it is not the
key-by-key merge of the two contributions the claim requires. -/
theorem c1_custom_merge_counterexample :
    (runTrack 7 c1Chain clickEvent).map (fun p => (ctxOf p.2.context).custom)
        = [some [("y", 2)]]
      ∧ mergeCustomSpec [("x", 1)] [("y", 2)] = [("x", 1), ("y", 2)]
      ∧ some [("y", 2)] ≠ some (mergeCustomSpec [("x", 1)] [("y", 2)]) := by
  refine ⟨by decide, by decide, by decide⟩

/-- Claim C1 (amended): for every chain of nested scopes and every tracked
event without an event-level context, the `custom` mapping of the resolved
context is the innermost contributed custom mapping taken wholesale
(`resolvedCustom`), not a key-by-key merge of the contributions. -/
theorem c1_custom_replaced_wholesale (chain : List Scope) (now : Nat)
    (et ct : String) (cid : Option String) (md : Option (List (String × Int)))
    (a : Nat) (ev : AnalyticsEvent)
    (h : (a, ev) ∈ runTrack now chain
      { eventType := et, componentType := ct, componentId := cid,
        metadata := md, context := none }) :
    (ctxOf ev.context).custom = resolvedCustom chain := by
  have hc := runTrack_context now chain _ a ev h
  rw [hc, ctxOf_some, ctxOf_none, spreadContext_default]
  exact ctxResolved_custom chain

theorem c1_custom_replaced_wholesale_witness :
    (ctxOf (AnalyticsEvent.mk "click" "button" none none 7
        (some { custom := some [("y", 2)] })).context).custom = resolvedCustom c1Chain :=
  c1_custom_replaced_wholesale c1Chain 7 "click" "button" none none 0
    (AnalyticsEvent.mk "click" "button" none none 7 (some { custom := some [("y", 2)] }))
    (by decide)

/-- Claim C2: the required accessor raises when no provider or composer
encloses the call site; the optional accessor returns the absent value, and
using it performs no action — the bare chain tracks nothing and the Button
click handler, which consumes the optional accessor, emits no delivery. -/
theorem c2_required_raises_optional_inert :
    useAnalytics [] = Except.error "useAnalytics must be used within an AnalyticsProvider"
      ∧ useOptionalAnalytics [] = none
      ∧ (∀ (now : Nat) (e : PartialEvent), runTrack now [] e = [])
      ∧ (∀ (da di : Bool) (aid : Option String) (md : Option (List (String × Int)))
          (now : Nat), handleClick [] da di aid md now = []) := by
  refine ⟨rfl, rfl, fun _ _ => rfl, fun da di aid md now => ?_⟩
  cases da <;> cases di <;> rfl

/-- Claim C5: for every chain of nested scopes, the `sectionField` of the
context resolved for a tracked event (with no event-level context) is the
innermost scope's contribution for that field, as computed by
`resolvedSection`. -/
theorem c5_innermost_section_wins (chain : List Scope) (now : Nat)
    (et ct : String) (cid : Option String) (md : Option (List (String × Int)))
    (a : Nat) (ev : AnalyticsEvent)
    (h : (a, ev) ∈ runTrack now chain
      { eventType := et, componentType := ct, componentId := cid,
        metadata := md, context := none }) :
    (ctxOf ev.context).sectionField = resolvedSection chain := by
  have hc := runTrack_context now chain _ a ev h
  rw [hc, ctxOf_some, ctxOf_none, spreadContext_default]
  exact ctxResolved_sectionField chain

/-- Outer scope for the section-precedence scenario. -/
def c5OuterCtx : AnalyticsContext := { sectionField := some "A" }

/-- Inner scope for the section-precedence scenario. -/
def c5InnerCtx : AnalyticsContext := { sectionField := some "B" }

/-- Nested scopes for the section-precedence scenario, innermost first. -/
def c5Chain : List Scope :=
  [Scope.contextProvider c5InnerCtx, Scope.provider (some 0) true (some c5OuterCtx)]

theorem c5_innermost_section_wins_witness :
    (ctxOf (AnalyticsEvent.mk "click" "button" none none 3
        (some { sectionField := some "B" })).context).sectionField
      = resolvedSection c5Chain :=
  c5_innermost_section_wins c5Chain 3 "click" "button" none none 0
    (AnalyticsEvent.mk "click" "button" none none 3 (some { sectionField := some "B" }))
    (by decide)

/-- Claim C6: for every chain of nested scopes, a delivery for a tracked
event is the only delivery for that event (the emission list is exactly that
one invocation), and its adapter is the one exposed by the scope nearest the
emitting control — no ancestor scope's adapter is invoked for the same
event. -/
theorem c6_single_adapter_delivery (chain : List Scope) (now : Nat)
    (e : PartialEvent) (a : Nat) (ev : AnalyticsEvent)
    (h : (a, ev) ∈ runTrack now chain e) :
    runTrack now chain e = [(a, ev)] ∧ ctxAdapter chain = some a := by
  refine ⟨?_, runTrack_adapter now chain e a ev h⟩
  have hlen := runTrack_length now chain e
  match hl : runTrack now chain e with
  | [] => rw [hl] at h; exact absurd h (List.not_mem_nil _)
  | [x] =>
    rw [hl] at h
    rw [List.mem_singleton] at h
    rw [h]
  | x :: y :: zs =>
    rw [hl] at hlen
    simp at hlen

/-- Three nested `AnalyticsProvider` scopes, each with its own adapter
(innermost first: adapters 3, 2, 1). -/
def c6Chain : List Scope :=
  [Scope.provider (some 3) true none, Scope.provider (some 2) true none,
    Scope.provider (some 1) true none]

theorem c6_single_adapter_delivery_witness :
    runTrack 4 c6Chain clickEvent
        = [(3, AnalyticsEvent.mk "click" "button" none none 4 (some {}))]
      ∧ ctxAdapter c6Chain = some 3 :=
  c6_single_adapter_delivery c6Chain 4 clickEvent 3
    (AnalyticsEvent.mk "click" "button" none none 4 (some {})) (by decide)

/-- Unfolding lemma: a context provider over a non-empty chain forwards to
the parent's track with the rebuilt event context. -/
theorem runTrack_contextProvider_cons (now : Nat) (add : AnalyticsContext)
    (s : Scope) (rs : List Scope) (e : PartialEvent) :
    runTrack now (Scope.contextProvider add :: s :: rs) e
      = runTrack now (s :: rs)
          { e with
            context :=
              some (spreadContext (spreadContext (ctxOf (ctxResolved (s :: rs))) add)
                (ctxOf e.context)) } := by
  simp only [runTrack, List.isEmpty_cons, Bool.false_eq_true, if_false]

/-- Claim C8: when tracking is disabled at the nearest provider scope, the
composer's `track` performs zero adapter invocations (and, being a total
function over an immutable chain, neither raises nor changes any state),
through any number of intervening context-provider scopes. -/
theorem c8_disabled_short_circuit (now : Nat) (a : Option Nat)
    (pctx : Option AnalyticsContext) (rest : List Scope) :
    ∀ (adds : List AnalyticsContext) (e : PartialEvent),
      runTrack now
        (adds.map Scope.contextProvider ++ Scope.provider a false pctx :: rest) e = []
  | [], e => by simp [runTrack]
  | hd :: tl, e => by
    cases tl with
    | nil => simp [runTrack]
    | cons h2 t2 =>
      have ih := c8_disabled_short_circuit now a pctx rest (h2 :: t2)
      simp only [List.map_cons, List.cons_append] at ih ⊢
      rw [runTrack_contextProvider_cons]
      exact ih _

/-- Claim C9: every delivered event carries the clock value read when `track`
was invoked; since finalization and adapter receipt happen within the same
synchronous step, the timestamp lies (inclusively) between the invocation and
the receipt, and with a monotone clock the timestamps of successively tracked
events from the same chain are non-decreasing. -/
theorem c9_timestamp_assignment (chain : List Scope) (t1 t2 : Nat)
    (e1 e2 : PartialEvent) (a1 a2 : Nat) (ev1 ev2 : AnalyticsEvent)
    (h1 : (a1, ev1) ∈ runTrack t1 chain e1)
    (h2 : (a2, ev2) ∈ runTrack t2 chain e2)
    (hmono : t1 ≤ t2) :
    ev1.timestamp = t1 ∧ ev2.timestamp = t2 ∧ ev1.timestamp ≤ ev2.timestamp := by
  have k1 := runTrack_timestamp t1 chain e1 a1 ev1 h1
  have k2 := runTrack_timestamp t2 chain e2 a2 ev2 h2
  refine ⟨k1, k2, ?_⟩
  rw [k1, k2]
  exact hmono

/-- A single provider scope with adapter 5, used to witness the timestamp
claim. -/
def c9Chain : List Scope := [Scope.provider (some 5) true none]

theorem c9_timestamp_assignment_witness :
    (AnalyticsEvent.mk "click" "button" none none 10 (some {})).timestamp = 10
      ∧ (AnalyticsEvent.mk "click" "button" none none 11 (some {})).timestamp = 11
      ∧ (AnalyticsEvent.mk "click" "button" none none 10 (some {})).timestamp
          ≤ (AnalyticsEvent.mk "click" "button" none none 11 (some {})).timestamp :=
  c9_timestamp_assignment c9Chain 10 11 clickEvent clickEvent 5 5
    (AnalyticsEvent.mk "click" "button" none none 10 (some {}))
    (AnalyticsEvent.mk "click" "button" none none 11 (some {}))
    (by decide) (by decide) (by decide)

/-- Constructor argument of `NatsAdapter`: every option may be absent. -/
structure NatsAdapterConfig where
  bridgeUrl : Option String := none
  debug : Option Bool := none
  retry : Option Bool := none
  maxRetries : Option Nat := none
deriving DecidableEq

/-- `Required NatsAdapterConfig`: the normalized configuration the
constructor stores. -/
structure ResolvedConfig where
  bridgeUrl : String
  debug : Bool
  retry : Bool
  maxRetries : Nat
deriving DecidableEq

/-- The constructor's defaulting logic, with JavaScript falsiness made
explicit: an absent or empty `bridgeUrl` falls back to the default URL, an
absent `debug` is false, `retry` is on unless explicitly false, and an
absent or zero `maxRetries` becomes 3. -/
def resolveConfig (c : NatsAdapterConfig) : ResolvedConfig :=
  { bridgeUrl :=
      match c.bridgeUrl with
      | some s => if s = "" then "http://localhost:3001" else s
      | none => "http://localhost:3001"
    debug := c.debug.getD false
    retry :=
      match c.retry with
      | some false => false
      | _ => true
    maxRetries :=
      match c.maxRetries with
      | some n => if n = 0 then 3 else n
      | none => 3 }

/-- Mutable fields of a `NatsAdapter` instance. -/
structure NatsAdapterState where
  eventQueue : List AnalyticsEvent := []
  isOnline : Bool := true
deriving DecidableEq

/-- Outcome of one HTTP send attempt: `failure` covers both a network error
and a non-success status (the adapter converts the latter into a thrown
error inside the try block). -/
inductive SendOutcome where
  | success
  | failure
deriving DecidableEq

/-- What one `NatsAdapter.track` call did: the resulting instance state, the
events the collector accepted during the call, and whether the retry
procedure was triggered. -/
structure TrackResult where
  state : NatsAdapterState
  delivered : List AnalyticsEvent
  retryTriggered : Bool
deriving DecidableEq

/-- The body of the try block: the fetch either resolves to a success
response or raises (directly for a network error, via the explicit throw
for a non-success status). -/
def sendEvent (outcome : SendOutcome) : Except String Unit :=
  match outcome with
  | .success => Except.ok ()
  | .failure => Except.error "Failed to publish event"

/-- `NatsAdapter.track`: the send is attempted inside a try/catch; the catch
block logs, and — only when retry is enabled — appends the event to the
in-memory queue and triggers the retry procedure.  The call itself always
returns normally (`Except.ok`): no failure propagates to the caller. -/
def natsTrack (cfg : ResolvedConfig) (st : NatsAdapterState) (outcome : SendOutcome)
    (e : AnalyticsEvent) : Except String TrackResult :=
  match sendEvent outcome with
  | Except.ok _ => Except.ok { state := st, delivered := [e], retryTriggered := false }
  | Except.error _ =>
    if cfg.retry then
      Except.ok
        { state := { st with eventQueue := st.eventQueue ++ [e] }
          delivered := []
          retryTriggered := true }
    else
      Except.ok { state := st, delivered := [], retryTriggered := false }

/-- The pure result of a `track` call (well-defined because `natsTrack`
never returns an error). -/
def natsTrackRun (cfg : ResolvedConfig) (st : NatsAdapterState) (outcome : SendOutcome)
    (e : AnalyticsEvent) : TrackResult :=
  match natsTrack cfg st outcome e with
  | Except.ok r => r
  | Except.error _ => { state := st, delivered := [], retryTriggered := false }

theorem natsTrack_ok (cfg : ResolvedConfig) (st : NatsAdapterState)
    (outcome : SendOutcome) (e : AnalyticsEvent) :
    natsTrack cfg st outcome e = Except.ok (natsTrackRun cfg st outcome e) := by
  cases outcome
  case success => rfl
  case failure =>
    by_cases h : cfg.retry <;> simp [natsTrack, natsTrackRun, sendEvent, h]

/-- A sequence of `track` calls, each with its own send outcome; returns the
final instance state and the concatenation of the delivered events. -/
def runTracks (cfg : ResolvedConfig) :
    NatsAdapterState → List (SendOutcome × AnalyticsEvent) →
      NatsAdapterState × List AnalyticsEvent
  | st, [] => (st, [])
  | st, (o, e) :: rest =>
    let r := natsTrackRun cfg st o e
    let p := runTracks cfg r.state rest
    (p.1, r.delivered ++ p.2)

/-- The drain loop of `retryQueue`: re-invoke `track` for each event of the
snapshot in original enqueue order, the i-th re-send getting outcome
`send i`. -/
def drainQueue (cfg : ResolvedConfig) (send : Nat → SendOutcome) :
    Nat → NatsAdapterState → List AnalyticsEvent →
      NatsAdapterState × List AnalyticsEvent
  | _, st, [] => (st, [])
  | i, st, e :: rest =>
    let r := natsTrackRun cfg st (send i) e
    let p := drainQueue cfg send (i + 1) r.state rest
    (p.1, r.delivered ++ p.2)

/-- `NatsAdapter.retryQueue`: returns immediately on an empty queue;
otherwise waits, re-probes the connection (`probe` is the health-check
outcome, stored into `isOnline`), defers while offline, and when online
snapshots the queue, clears it, and re-tracks the snapshot in order. -/
def retryQueue (cfg : ResolvedConfig) (send : Nat → SendOutcome) (probe : Bool)
    (st : NatsAdapterState) : NatsAdapterState × List AnalyticsEvent :=
  if st.eventQueue.isEmpty then (st, [])
  else
    if probe then
      drainQueue cfg send 0 { eventQueue := [], isOnline := probe } st.eventQueue
    else ({ st with isOnline := probe }, [])

/-- Draining with no failures delivers the snapshot unchanged, in order,
and leaves the state as it was when the drain started. -/
theorem drainQueue_all_success (cfg : ResolvedConfig) (send : Nat → SendOutcome)
    (hs : ∀ j, send j = SendOutcome.success) :
    ∀ (q : List AnalyticsEvent) (i : Nat) (st : NatsAdapterState),
      drainQueue cfg send i st q = (st, q)
  | [], i, st => rfl
  | e :: rest, i, st => by
    simp only [drainQueue, hs i, natsTrackRun, natsTrack, sendEvent,
      drainQueue_all_success cfg send hs rest (i + 1) st, List.singleton_append]

/-- Claim C3: with retry enabled, three events tracked while the endpoint is
unreachable are queued in order, and a retry drain with the endpoint back
online and no further send failures delivers all three in original enqueue
order, each exactly once, leaving the queue empty. -/
theorem c3_retry_drain_order (cfg : ResolvedConfig) (h : cfg.retry = true)
    (e1 e2 e3 : AnalyticsEvent) (b : Bool) :
    runTracks cfg { eventQueue := [], isOnline := b }
        [(SendOutcome.failure, e1), (SendOutcome.failure, e2), (SendOutcome.failure, e3)]
      = ({ eventQueue := [e1, e2, e3], isOnline := b }, [])
    ∧ retryQueue cfg (fun _ => SendOutcome.success) true
        { eventQueue := [e1, e2, e3], isOnline := b }
      = ({ eventQueue := [], isOnline := true }, [e1, e2, e3]) := by
  constructor
  · simp [runTracks, natsTrackRun, natsTrack, sendEvent, h]
  · simp only [retryQueue, List.isEmpty_cons, Bool.false_eq_true, if_false,
      if_true, Bool.true_eq_false,
      drainQueue_all_success cfg (fun _ => SendOutcome.success) (fun _ => rfl)]

/-- First offline-tracked event of the retry scenario. -/
def evA : AnalyticsEvent := { eventType := "click", componentType := "button", timestamp := 1 }

/-- Second offline-tracked event of the retry scenario. -/
def evB : AnalyticsEvent := { eventType := "focus", componentType := "textbox", timestamp := 2 }

/-- Third offline-tracked event of the retry scenario. -/
def evC : AnalyticsEvent := { eventType := "open", componentType := "popup", timestamp := 3 }

theorem c3_retry_drain_order_witness :
    runTracks (resolveConfig {}) { eventQueue := [], isOnline := true }
        [(SendOutcome.failure, evA), (SendOutcome.failure, evB), (SendOutcome.failure, evC)]
      = ({ eventQueue := [evA, evB, evC], isOnline := true }, [])
    ∧ retryQueue (resolveConfig {}) (fun _ => SendOutcome.success) true
        { eventQueue := [evA, evB, evC], isOnline := true }
      = ({ eventQueue := [], isOnline := true }, [evA, evB, evC]) :=
  c3_retry_drain_order (resolveConfig {}) rfl evA evB evC true

/-- Claim C4: a `track` call on the delivery adapter always returns normally
to its caller, whatever the send outcome; a successful send delivers the
event with no queuing; a failed send appends the event to the retry queue
and triggers the retry procedure when retry is enabled, and is swallowed
without queuing when retry is disabled. -/
theorem c4_track_never_raises (cfg : ResolvedConfig) (st : NatsAdapterState)
    (outcome : SendOutcome) (e : AnalyticsEvent) :
    natsTrack cfg st outcome e = Except.ok (natsTrackRun cfg st outcome e)
      ∧ natsTrackRun cfg st SendOutcome.success e
          = { state := st, delivered := [e], retryTriggered := false }
      ∧ natsTrackRun cfg st SendOutcome.failure e
          = if cfg.retry then
              { state := { st with eventQueue := st.eventQueue ++ [e] }
                delivered := [], retryTriggered := true }
            else { state := st, delivered := [], retryTriggered := false } := by
  refine ⟨natsTrack_ok cfg st outcome e, rfl, ?_⟩
  by_cases h : cfg.retry <;> simp [natsTrackRun, natsTrack, sendEvent, h]

theorem runTracks_maxRetries (cfg : ResolvedConfig) (m : Nat) :
    ∀ (st : NatsAdapterState) (ops : List (SendOutcome × AnalyticsEvent)),
      runTracks { cfg with maxRetries := m } st ops = runTracks cfg st ops
  | _, [] => rfl
  | st, (o, e) :: rest => by
    simp only [runTracks]
    have hstep : natsTrackRun { cfg with maxRetries := m } st o e
        = natsTrackRun cfg st o e := rfl
    rw [hstep, runTracks_maxRetries cfg m _ rest]

theorem drainQueue_maxRetries (cfg : ResolvedConfig) (m : Nat) (send : Nat → SendOutcome) :
    ∀ (q : List AnalyticsEvent) (i : Nat) (st : NatsAdapterState),
      drainQueue { cfg with maxRetries := m } send i st q = drainQueue cfg send i st q
  | [], _, _ => rfl
  | e :: rest, i, st => by
    simp only [drainQueue]
    have hstep : natsTrackRun { cfg with maxRetries := m } st (send i) e
        = natsTrackRun cfg st (send i) e := rfl
    rw [hstep, drainQueue_maxRetries cfg m send rest (i + 1)]

/-- Claim C7: the delivery adapter's observable behavior is independent of
the configured `maxRetries` ceiling — a single `track` call, any sequence of
tracked events with their send outcomes, and a retry-drain invocation all
produce identical send results and identical queue state under two
configurations differing only in `maxRetries`; the retry loop consults no
attempt counter. -/
theorem c7_maxRetries_independent (cfg : ResolvedConfig) (m : Nat)
    (st : NatsAdapterState) (ops : List (SendOutcome × AnalyticsEvent))
    (send : Nat → SendOutcome) (probe : Bool) (outcome : SendOutcome)
    (e : AnalyticsEvent) :
    natsTrack { cfg with maxRetries := m } st outcome e = natsTrack cfg st outcome e
      ∧ runTracks { cfg with maxRetries := m } st ops = runTracks cfg st ops
      ∧ retryQueue { cfg with maxRetries := m } send probe st
          = retryQueue cfg send probe st := by
  refine ⟨rfl, runTracks_maxRetries cfg m st ops, ?_⟩
  by_cases hq : st.eventQueue.isEmpty
  · simp [retryQueue, hq]
  · by_cases hp : probe <;>
      simp [retryQueue, hq, hp, drainQueue_maxRetries cfg m send]

/-- The JSON body the bridge receives on `POST /analytics`: every field may
be absent, and `timestamp` may also be present but zero (falsy). -/
structure BridgePayload where
  eventType : Option String := none
  componentType : Option String := none
  componentId : Option String := none
  metadata : Option (List (String × Int)) := none
  timestamp : Option Nat := none
deriving DecidableEq

/-- The HTTP response of the bridge handler: 200 with the published event,
400 for an invalid event structure, 503 while NATS is not connected. -/
inductive BridgeResponse where
  | ok (event : BridgePayload)
  | badRequest
  | unavailable
deriving DecidableEq

/-- JavaScript truthiness of an optional string field: an absent field and
the empty string are both falsy. -/
def truthyStr : Option String → Bool
  | none => false
  | some s => s != ""

/-- JavaScript truthiness of an optional number field: an absent field and
zero are both falsy. -/
def truthyNat : Option Nat → Bool
  | none => false
  | some n => n != 0

/-- The `POST /analytics` handler of `demo/bridge.js`: responds 503 while the
NATS connection is absent; rejects with 400 a payload whose `eventType` or
`componentType` is falsy; otherwise stamps a server timestamp onto a payload
with a falsy timestamp and publishes exactly that event.  The second
component is the list of events published to NATS by the call. -/
def postAnalytics (natsConnected : Bool) (now : Nat) (p : BridgePayload) :
    BridgeResponse × List BridgePayload :=
  if !natsConnected then (BridgeResponse.unavailable, [])
  else if !(truthyStr p.eventType && truthyStr p.componentType) then
    (BridgeResponse.badRequest, [])
  else
    let e := if truthyNat p.timestamp then p else { p with timestamp := some now }
    (BridgeResponse.ok e, [e])

/-- Claim C10: the bridge responds 503 and publishes nothing while the broker
connection is absent; with the broker connected it rejects with 400 — and
publishes nothing — any payload missing (or carrying a falsy) `eventType` or
`componentType`; an accepted payload without a timestamp is stamped with the
server clock before publishing; and, for a positive server clock, every
published event has a truthy `eventType`, `componentType` and `timestamp`. -/
theorem c10_bridge_post_validation (p : BridgePayload) (now : Nat) :
    postAnalytics false now p = (BridgeResponse.unavailable, [])
      ∧ ((truthyStr p.eventType && truthyStr p.componentType) = false →
          postAnalytics true now p = (BridgeResponse.badRequest, []))
      ∧ ((truthyStr p.eventType && truthyStr p.componentType) = true →
          (postAnalytics true now p).2
            = [if truthyNat p.timestamp then p else { p with timestamp := some now }])
      ∧ (∀ conn : Bool, 0 < now →
          ∀ q ∈ (postAnalytics conn now p).2,
            truthyStr q.eventType = true ∧ truthyStr q.componentType = true
              ∧ truthyNat q.timestamp = true) := by
  refine ⟨rfl, fun h => by simp [postAnalytics, h], fun h => by simp [postAnalytics, h],
    fun conn hnow q hq => ?_⟩
  cases conn with
  | false => simp [postAnalytics] at hq
  | true =>
    by_cases h : (truthyStr p.eventType && truthyStr p.componentType) = true
    · simp [postAnalytics, h] at hq
      rw [Bool.and_eq_true] at h
      obtain ⟨h1, h2⟩ := h
      subst hq
      by_cases ht : truthyNat p.timestamp = true
      · simp [ht, h1, h2]
      · simp only [ht, Bool.false_eq_true, if_false]
        refine ⟨h1, h2, ?_⟩
        simp [truthyNat, Nat.pos_iff_ne_zero.mp hnow]
    · rw [Bool.not_eq_true] at h
      simp [postAnalytics, h] at hq

/-- A well-formed payload with no timestamp, used to witness the bridge
claim. -/
def bridgeP0 : BridgePayload :=
  { eventType := some "click", componentType := some "button" }

theorem c10_bridge_post_validation_witness :
    postAnalytics false 42 bridgeP0 = (BridgeResponse.unavailable, [])
      ∧ ((truthyStr bridgeP0.eventType && truthyStr bridgeP0.componentType) = false →
          postAnalytics true 42 bridgeP0 = (BridgeResponse.badRequest, []))
      ∧ ((truthyStr bridgeP0.eventType && truthyStr bridgeP0.componentType) = true →
          (postAnalytics true 42 bridgeP0).2
            = [if truthyNat bridgeP0.timestamp then bridgeP0
               else { bridgeP0 with timestamp := some 42 }])
      ∧ (∀ conn : Bool, 0 < 42 →
          ∀ q ∈ (postAnalytics conn 42 bridgeP0).2,
            truthyStr q.eventType = true ∧ truthyStr q.componentType = true
              ∧ truthyNat q.timestamp = true) :=
  c10_bridge_post_validation bridgeP0 42
